import Mathlib

/-!
Shallow embedding of the lutron-caseta-mcp server core
(src/lutron_caseta_mcp/validation.py, pairing.py, server.py).

External collaborators (the Python stdlib `ipaddress` parser, the
`pylutron_caseta` bridge client, path expansion and the filesystem) are
modelled as explicit oracle parameters; filesystem effects are recorded as a
trace of operations. Exceptions are modelled with `Except`; Python values
reaching the dynamically-typed level validator are modelled by `PyVal`.
-/

namespace LutronCasetaMcp

/-- Decidable equality for `Except`, used to evaluate the embedded
functions on concrete inputs. -/
instance exceptDecidableEq {ε α : Type} [DecidableEq ε] [DecidableEq α] :
    DecidableEq (Except ε α)
  | .error a, .error b =>
    if h : a = b then .isTrue (by rw [h])
    else .isFalse (by intro hh; cases hh; exact h rfl)
  | .error _, .ok _ => .isFalse (by intro h; cases h)
  | .ok _, .error _ => .isFalse (by intro h; cases h)
  | .ok a, .ok b =>
    if h : a = b then .isTrue (by rw [h])
    else .isFalse (by intro hh; cases hh; exact h rfl)

/-- Whitespace characters removed by Python str.strip (ASCII subset). -/
def isPySpace (c : Char) : Bool :=
  c = ' ' || c = '\t' || c = '\n' || c = '\r' || c = '\x0b' || c = '\x0c'

/-- Python str.strip on a character list. -/
def pyStripList (l : List Char) : List Char :=
  ((l.dropWhile isPySpace).reverse.dropWhile isPySpace).reverse

/-- Python str.strip. -/
def pyStrip (s : String) : String :=
  String.mk (pyStripList s.data)

/-- Python str.lower (ASCII). -/
def pyLower (s : String) : String :=
  String.mk (s.data.map Char.toLower)

/-- Python runtime values that may reach the dynamically-typed validators.
A Python bool is an instance of int; float/None/list payloads are never
inspected by the validator, only the type. -/
inductive PyVal where
  | intv (n : Int)
  | boolv (b : Bool)
  | strv (s : String)
  | floatv
  | nonev
  | listv
deriving Repr, DecidableEq

/-- Python type(x).__name__ for the modelled values. -/
def pyTypeName : PyVal → String
  | .intv _ => "int"
  | .boolv _ => "bool"
  | .strv _ => "str"
  | .floatv => "float"
  | .nonev => "NoneType"
  | .listv => "list"

/-- Python isinstance(x, int); True for bool because bool subclasses int. -/
def isinstance_int : PyVal → Bool
  | .intv _ => true
  | .boolv _ => true
  | _ => false

/-- Numeric value of an int-instance (bool True is 1, False is 0). -/
def pyIntVal : PyVal → Int
  | .intv n => n
  | .boolv b => if b then 1 else 0
  | _ => 0

/-- Python str(x) for the values that can appear in validator messages. -/
def pyStr : PyVal → String
  | .intv n => toString n
  | .boolv b => if b then "True" else "False"
  | .strv s => s
  | .floatv => "float-value"
  | .nonev => "None"
  | .listv => "list-value"

/-- validation.validate_host_ip. The stdlib `ipaddress.ip_address` parser is
an external collaborator, passed in as the boolean oracle `ip_address`
(true exactly when the string parses as an IPv4 or IPv6 literal).
ValidationError is the error side of `Except`. -/
def validate_host_ip (ip_address : String → Bool) (host : String) :
    Except String String :=
  if host = "" ∨ pyStrip host = "" then .error "Host IP cannot be empty"
  else
    let host := pyStrip host
    if ip_address host then .ok host
    else .error ("Invalid IP address format: " ++ host)

/-- validation.validate_device_level. -/
def validate_device_level (level : PyVal) : Except String PyVal :=
  if !isinstance_int level then
    .error ("Device level must be an integer, got " ++ pyTypeName level)
  else if !(decide (0 ≤ pyIntVal level) && decide (pyIntVal level ≤ 100)) then
    .error ("Device level must be between 0 and 100, got " ++ pyStr level)
  else .ok level

/-- The literal set of valid domains from validation.validate_domain. -/
def valid_domains : List String := ["light", "switch", "cover", "sensor", "fan"]

/-- `', '.join(sorted(valid_domains))` evaluated on the fixed literal set. -/
def sorted_domains_str : String :=
  String.intercalate ", " ["cover", "fan", "light", "sensor", "switch"]

/-- validation.validate_domain. -/
def validate_domain (domain : String) : Except String String :=
  if domain = "" ∨ pyStrip domain = "" then .error "Domain cannot be empty"
  else
    let domain := pyLower (pyStrip domain)
    if domain ∈ valid_domains then .ok domain
    else .error ("Invalid domain \x27" ++ domain ++ "\x27. Valid domains are: " ++
      sorted_domains_str)

/-! ## pairing.py -/

/-- The dict returned by the external pylutron_caseta async_pair primitive. -/
structure PairJson where
  ca : String
  cert : String
  key : String
  version : String
deriving Repr, DecidableEq

/-- The data payload of a successful PairingResult. -/
structure PairingData where
  version : String
  ca_path : String
  cert_path : String
  key_path : String
deriving Repr, DecidableEq

/-- pairing.PairingResult. -/
structure PairingResult where
  success : Bool
  message : String
  data : Option PairingData := none
deriving Repr, DecidableEq

/-- A recorded filesystem effect: mkdir(parents=True, exist_ok=True),
open(path, "w").write(content), or Path.chmod(mode). -/
inductive FsOp where
  | mkdir_parents (path : String)
  | write (path : String) (content : String)
  | chmod (path : String) (mode : Nat)
deriving Repr, DecidableEq

/-- Path-manipulation collaborators (Path.expanduser, Path.absolute). -/
structure PathOracle where
  expanduser : String → String
  absolute : String → String

/-- pairing.pair_bridge. The external async_pair primitive is the oracle
`async_pair`; an exception it raises is its `.error` side, carrying str(e).
The readiness callback only produces console output and is not modelled.
The returned trace lists the filesystem writes the success path performs,
in program order; the failure branch of the try block performs none because
async_pair is the first statement of the try. -/
def pair_bridge (po : PathOracle) (async_pair : String → Except String PairJson)
    (host : String) (output_dir : String) : PairingResult × List FsOp :=
  match async_pair host with
  | .error e => ({ success := false, message := "Pairing failed: " ++ e }, [])
  | .ok data =>
    let output_path := po.expanduser output_dir
    let ca_path := output_path ++ "/caseta-bridge.crt"
    let cert_path := output_path ++ "/caseta.crt"
    let key_path := output_path ++ "/caseta.key"
    ({ success := true,
       message := "Successfully paired with " ++ data.version ++
         ". Certificate files saved to: " ++ po.absolute output_path,
       data := some { version := data.version, ca_path := ca_path,
                      cert_path := cert_path, key_path := key_path } },
     [FsOp.mkdir_parents output_path,
      FsOp.write ca_path data.ca,
      FsOp.write cert_path data.cert,
      FsOp.write key_path data.key,
      FsOp.chmod key_path 0o600])

/-! ## server.py: Connection Manager -/

/-- Opaque handle to the external Smartbridge client object. -/
structure Smartbridge where
  handle : Unit := ()
deriving Repr, DecidableEq

/-- Python exception classes distinguished by the tool layer. -/
inductive PyErr where
  | runtimeError (msg : String)
  | valueError (msg : String)
deriving Repr, DecidableEq

/-- A device record supplied by the external bridge client. -/
structure Device where
  device_id : String
  name : String
deriving Repr, DecidableEq

/-- Behaviour of the external bridge client: each call either yields a value
or raises (the `.error` side carries the exception text). -/
structure BridgeOracle where
  get_devices_by_domain : String → Option (List Device)
  turn_on : String → Except String Unit
  turn_off : String → Except String Unit
  set_value : String → Int → Except String Unit

/-- Behaviour of Smartbridge.create_tls and the subsequent bridge.connect. -/
structure ConnectOracle where
  create_tls : String → String → String → String → Except String Smartbridge
  bridge_connect : Smartbridge → Except String Unit

/-- server.LutronCasetaManager instance state. -/
structure LutronCasetaManager where
  bridge_ip : String
  key_path : String
  cert_path : String
  ca_path : String
  bridge : Option Smartbridge := none
  connected : Bool := false
deriving Repr, DecidableEq

/-- The message of the RuntimeError raised by the manager's guards. -/
def mgrNotConnectedMsg : String := "Not connected to Lutron Caseta bridge"

/-- LutronCasetaManager.connect: returns the updated manager state and the
boolean result; an exception from either external call is caught and turned
into `false` (the connected flag is only ever set on full success). -/
def LutronCasetaManager.connect (o : ConnectOracle) (m : LutronCasetaManager) :
    LutronCasetaManager × Bool :=
  match o.create_tls m.bridge_ip m.key_path m.cert_path m.ca_path with
  | .error _ => (m, false)
  | .ok b =>
    match o.bridge_connect b with
    | .error _ => ({ m with bridge := some b }, false)
    | .ok _ => ({ m with bridge := some b, connected := true }, true)

/-- LutronCasetaManager.disconnect: returns the updated state and whether
bridge.close() was invoked (`if self.bridge and self.connected`). -/
def LutronCasetaManager.disconnect (m : LutronCasetaManager) :
    LutronCasetaManager × Bool :=
  if m.bridge ≠ none ∧ m.connected = true then ({ m with connected := false }, true)
  else (m, false)

/-- LutronCasetaManager.get_devices_by_domain: result paired with whether the
external bridge client was invoked. -/
def LutronCasetaManager.get_devices_by_domain (o : BridgeOracle)
    (m : LutronCasetaManager) (domain : String) :
    Except PyErr (List Device) × Bool :=
  if !m.connected || m.bridge.isNone then
    (.error (.runtimeError mgrNotConnectedMsg), false)
  else
    match o.get_devices_by_domain domain with
    | some ds => (.ok ds, true)
    | none => (.ok [], true)

/-- LutronCasetaManager.turn_on: delegate exceptions are caught and become
`false`. -/
def LutronCasetaManager.turn_on (o : BridgeOracle) (m : LutronCasetaManager)
    (device_id : String) : Except PyErr Bool × Bool :=
  if !m.connected || m.bridge.isNone then
    (.error (.runtimeError mgrNotConnectedMsg), false)
  else
    match o.turn_on device_id with
    | .ok _ => (.ok true, true)
    | .error _ => (.ok false, true)

/-- LutronCasetaManager.turn_off. -/
def LutronCasetaManager.turn_off (o : BridgeOracle) (m : LutronCasetaManager)
    (device_id : String) : Except PyErr Bool × Bool :=
  if !m.connected || m.bridge.isNone then
    (.error (.runtimeError mgrNotConnectedMsg), false)
  else
    match o.turn_off device_id with
    | .ok _ => (.ok true, true)
    | .error _ => (.ok false, true)

/-- LutronCasetaManager.set_level: after the connectivity guard it re-checks
the range and raises ValueError (uncaught) on violation; delegate exceptions
are caught and become `false`. -/
def LutronCasetaManager.set_level (o : BridgeOracle) (m : LutronCasetaManager)
    (device_id : String) (level : Int) : Except PyErr Bool × Bool :=
  if !m.connected || m.bridge.isNone then
    (.error (.runtimeError mgrNotConnectedMsg), false)
  else if !(decide (0 ≤ level) && decide (level ≤ 100)) then
    (.error (.valueError "Level must be between 0 and 100"), false)
  else
    match o.set_value device_id level with
    | .ok _ => (.ok true, true)
    | .error _ => (.ok false, true)

/-! ## server.py: server state and tool handlers -/

/-- server.LutronConfig. -/
structure LutronConfig where
  bridge_ip : String
  cert_dir : String
  key_path : String
  cert_path : String
  ca_path : String
deriving Repr, DecidableEq

/-- server.MCPServerState: configuration, active manager, connected flag. -/
structure MCPServerState where
  config : Option LutronConfig := none
  caseta_manager : Option LutronCasetaManager := none
  connected : Bool := false
deriving Repr, DecidableEq

/-- MCPServerState.update_config: `env_config` models the result of
LutronConfig.from_env(), consulted only when no configuration exists yet. -/
def MCPServerState.update_config (env_config : LutronConfig)
    (st : MCPServerState) (bridge_ip : String) : MCPServerState :=
  let cfg := match st.config with
    | none => env_config
    | some c => c
  { st with config := some { cfg with bridge_ip := bridge_ip } }

/-- The RuntimeError message raised by the tool-layer connectivity guards. -/
def toolNotConnectedMsg : String :=
  "Not connected to Lutron Caseta bridge. Use pair_bridge tool first."

/-- server.list_devices tool handler: the global server_state is the `st`
argument (None when uninitialized); result paired with whether the external
bridge client was invoked. A ValidationError from validate_domain is
re-raised as a ValueError. -/
def list_devices (o : BridgeOracle) (st : Option MCPServerState)
    (domain : String) : Except PyErr (List Device) × Bool :=
  match st with
  | none => (.error (.runtimeError toolNotConnectedMsg), false)
  | some s =>
    match s.caseta_manager with
    | none => (.error (.runtimeError toolNotConnectedMsg), false)
    | some mgr =>
      if !s.connected then (.error (.runtimeError toolNotConnectedMsg), false)
      else
        match validate_domain domain with
        | .error e => (.error (.valueError e), false)
        | .ok d => LutronCasetaManager.get_devices_by_domain o mgr d

/-- The dict returned by the device-action tool handlers. -/
structure DeviceActionResult where
  device_id : String
  action : String
  level : Option PyVal := none
  success : Bool
deriving Repr, DecidableEq

/-- server.set_device_level tool handler: connectivity guard, then level
validation (ValidationError re-raised as ValueError), then delegation to the
manager; result paired with whether the external bridge client was invoked. -/
def set_device_level (o : BridgeOracle) (st : Option MCPServerState)
    (device_id : String) (level : PyVal) :
    Except PyErr DeviceActionResult × Bool :=
  match st with
  | none => (.error (.runtimeError toolNotConnectedMsg), false)
  | some s =>
    match s.caseta_manager with
    | none => (.error (.runtimeError toolNotConnectedMsg), false)
    | some mgr =>
      if !s.connected then (.error (.runtimeError toolNotConnectedMsg), false)
      else
        match validate_device_level level with
        | .error e => (.error (.valueError e), false)
        | .ok lv =>
          match LutronCasetaManager.set_level o mgr device_id (pyIntVal lv) with
          | (.error err, inv) => (.error err, inv)
          | (.ok ok, inv) =>
            (.ok { device_id := device_id, action := "set_level",
                   level := some lv, success := ok }, inv)

/-- The dict returned by the pair_bridge_tool handler. -/
structure PairToolResponse where
  success : Bool
  message : String
  status : String
  connected : Bool
  certificate_files : Option PairingData := none
deriving Repr, DecidableEq

/-- The external collaborators consulted by pair_bridge_tool: the IP parser,
path operations, the async_pair primitive, the resolved certificate
directory (result of get_cert_dir()), the environment configuration (result
of LutronConfig.from_env()), and the connection oracle. -/
structure PairToolEnv where
  ip_address : String → Bool
  paths : PathOracle
  async_pair : String → Except String PairJson
  cert_dir : String
  env_config : LutronConfig
  connect_oracle : ConnectOracle

/-- server.pair_bridge_tool: returns the response dict, the updated global
server state, whether a pairing attempt (call to pair_bridge) was made, and
the trace of filesystem writes performed. -/
def pair_bridge_tool (env : PairToolEnv) (host : String)
    (st : Option MCPServerState) :
    PairToolResponse × Option MCPServerState × Bool × List FsOp :=
  match validate_host_ip env.ip_address host with
  | .error e =>
    ({ success := false, message := "❌ INVALID INPUT: " ++ e,
       status := "Please provide a valid IP address for your Lutron Caseta bridge.",
       connected := false }, st, false, [])
  | .ok h =>
    match st with
    | none =>
      ({ success := false, message := "❌ ERROR: Server state not initialized",
         status := "Internal server error. Please restart the MCP server.",
         connected := false }, none, false, [])
    | some s =>
      let cert_dir := env.cert_dir
      let result := pair_bridge env.paths env.async_pair h cert_dir
      if result.1.success then
        let s1 := MCPServerState.update_config env.env_config s h
        let key_path := cert_dir ++ "/caseta.key"
        let cert_path := cert_dir ++ "/caseta.crt"
        let ca_path := cert_dir ++ "/caseta-bridge.crt"
        let mgr0 : LutronCasetaManager :=
          { bridge_ip := h, key_path := key_path, cert_path := cert_path,
            ca_path := ca_path }
        let conn := LutronCasetaManager.connect env.connect_oracle mgr0
        let s2 := { s1 with caseta_manager := some conn.1, connected := conn.2 }
        ({ success := true,
           message := "✅ SUCCESS: Bridge paired successfully! " ++ result.1.message,
           status := "Your Lutron Caseta bridge is now connected and ready to control lights.",
           connected := conn.2,
           certificate_files := result.1.data }, some s2, true, result.2)
      else
        ({ success := false, message := "❌ FAILED: " ++ result.1.message,
           status := "Pairing failed. Please try again and make sure to press the small black button on the back of your bridge when the pairing starts.",
           connected := false }, some s, true, result.2)

/-! ## Theorems -/

/-- Claim C1: for every bridge address and output directory, if the external
pairing primitive raises, pair_bridge returns a structured failure result —
success is false and the message contains the original error text — and no
filesystem operation (in particular no credential write) is performed. -/
theorem c1_pair_failure_structured (po : PathOracle)
    (ap : String → Except String PairJson) (host output_dir e : String)
    (h : ap host = .error e) :
    (pair_bridge po ap host output_dir).1.success = false ∧
    (pair_bridge po ap host output_dir).1.message = "Pairing failed: " ++ e ∧
    (pair_bridge po ap host output_dir).2 = [] := by
  simp [pair_bridge, h]

/-- Witness for C1 at a concrete raising primitive. -/
theorem c1_pair_failure_structured_witness :
    (pair_bridge ⟨id, id⟩ (fun _ => .error "Timeout waiting for button press")
        "192.168.1.10" "/tmp/certs").1.success = false ∧
    (pair_bridge ⟨id, id⟩ (fun _ => .error "Timeout waiting for button press")
        "192.168.1.10" "/tmp/certs").1.message =
      "Pairing failed: " ++ "Timeout waiting for button press" ∧
    (pair_bridge ⟨id, id⟩ (fun _ => .error "Timeout waiting for button press")
        "192.168.1.10" "/tmp/certs").2 = [] :=
  c1_pair_failure_structured ⟨id, id⟩
    (fun _ => .error "Timeout waiting for button press")
    "192.168.1.10" "/tmp/certs" "Timeout waiting for button press" rfl

/-- Claim C2: every guarded device operation of the Connection Manager
(enumerate-by-domain, turn-on, turn-off, set-level) fails immediately with
the "not connected" RuntimeError when the connected flag is false, and the
external bridge client is never invoked. -/
theorem c2_guarded_ops_not_connected (o : BridgeOracle)
    (m : LutronCasetaManager) (domain device_id : String) (level : Int)
    (h : m.connected = false) :
    LutronCasetaManager.get_devices_by_domain o m domain =
      (.error (.runtimeError mgrNotConnectedMsg), false) ∧
    LutronCasetaManager.turn_on o m device_id =
      (.error (.runtimeError mgrNotConnectedMsg), false) ∧
    LutronCasetaManager.turn_off o m device_id =
      (.error (.runtimeError mgrNotConnectedMsg), false) ∧
    LutronCasetaManager.set_level o m device_id level =
      (.error (.runtimeError mgrNotConnectedMsg), false) := by
  simp [LutronCasetaManager.get_devices_by_domain, LutronCasetaManager.turn_on,
    LutronCasetaManager.turn_off, LutronCasetaManager.set_level, h]

/-- Shared concrete oracle for the external bridge client. -/
def idleOracle : BridgeOracle :=
  { get_devices_by_domain := fun _ => none,
    turn_on := fun _ => .ok (),
    turn_off := fun _ => .ok (),
    set_value := fun _ _ => .ok () }

/-- Shared concrete disconnected manager. -/
def sampleManager : LutronCasetaManager :=
  { bridge_ip := "192.168.1.10", key_path := "/certs/caseta.key",
    cert_path := "/certs/caseta.crt", ca_path := "/certs/caseta-bridge.crt" }

/-- Witness for C2 at a concrete disconnected manager. -/
theorem c2_guarded_ops_not_connected_witness :
    LutronCasetaManager.get_devices_by_domain idleOracle sampleManager "light" =
      (.error (.runtimeError mgrNotConnectedMsg), false) ∧
    LutronCasetaManager.turn_on idleOracle sampleManager "dev1" =
      (.error (.runtimeError mgrNotConnectedMsg), false) ∧
    LutronCasetaManager.turn_off idleOracle sampleManager "dev1" =
      (.error (.runtimeError mgrNotConnectedMsg), false) ∧
    LutronCasetaManager.set_level idleOracle sampleManager "dev1" 50 =
      (.error (.runtimeError mgrNotConnectedMsg), false) :=
  c2_guarded_ops_not_connected idleOracle sampleManager "light" "dev1" 50 rfl

/-- Claim C9: the level validator accepts both boolean values, because
Python's isinstance(level, int) is true for bool and both values lie in
[0, 100]; the boolean itself is returned unchanged. -/
theorem c9_bool_levels_accepted (b : Bool) :
    validate_device_level (.boolv b) = .ok (.boolv b) := by
  cases b <;> rfl

/-- Claim C6: on a successful pairing, pair_bridge performs exactly, and in
this order, a recursive directory creation, the three credential file
writes (CA certificate, client certificate, private key) under the fixed
filenames, and the owner-only chmod of the key file after its write; the
returned success result carries the bridge version and the three paths. -/
theorem c6_pair_success_persists (po : PathOracle)
    (ap : String → Except String PairJson) (host output_dir : String)
    (d : PairJson) (h : ap host = .ok d) :
    pair_bridge po ap host output_dir =
      ({ success := true,
         message := "Successfully paired with " ++ d.version ++
           ". Certificate files saved to: " ++
           po.absolute (po.expanduser output_dir),
         data := some
           { version := d.version,
             ca_path := po.expanduser output_dir ++ "/caseta-bridge.crt",
             cert_path := po.expanduser output_dir ++ "/caseta.crt",
             key_path := po.expanduser output_dir ++ "/caseta.key" } },
       [FsOp.mkdir_parents (po.expanduser output_dir),
        FsOp.write (po.expanduser output_dir ++ "/caseta-bridge.crt") d.ca,
        FsOp.write (po.expanduser output_dir ++ "/caseta.crt") d.cert,
        FsOp.write (po.expanduser output_dir ++ "/caseta.key") d.key,
        FsOp.chmod (po.expanduser output_dir ++ "/caseta.key") 0o600]) := by
  simp [pair_bridge, h]

/-- Shared concrete credential bundle. -/
def sampleBundle : PairJson :=
  { ca := "CA-PEM", cert := "CERT-PEM", key := "KEY-PEM", version := "1.115" }

/-- Witness for C6 at a concrete successful primitive. -/
theorem c6_pair_success_persists_witness :
    pair_bridge ⟨id, id⟩ (fun _ => .ok sampleBundle) "192.168.1.10" "/tmp/certs" =
      ({ success := true,
         message := "Successfully paired with " ++ sampleBundle.version ++
           ". Certificate files saved to: " ++ id (id "/tmp/certs"),
         data := some
           { version := sampleBundle.version,
             ca_path := id "/tmp/certs" ++ "/caseta-bridge.crt",
             cert_path := id "/tmp/certs" ++ "/caseta.crt",
             key_path := id "/tmp/certs" ++ "/caseta.key" } },
       [FsOp.mkdir_parents (id "/tmp/certs"),
        FsOp.write (id "/tmp/certs" ++ "/caseta-bridge.crt") sampleBundle.ca,
        FsOp.write (id "/tmp/certs" ++ "/caseta.crt") sampleBundle.cert,
        FsOp.write (id "/tmp/certs" ++ "/caseta.key") sampleBundle.key,
        FsOp.chmod (id "/tmp/certs" ++ "/caseta.key") 0o600]) :=
  c6_pair_success_persists ⟨id, id⟩ (fun _ => .ok sampleBundle)
    "192.168.1.10" "/tmp/certs" sampleBundle rfl

/-- Claim C7: from the Disconnected state, connect() returns a boolean and
never propagates an exception: if the TLS session construction and the
network handshake both succeed it sets the connected flag and returns true;
if either external call raises it returns false and the connected flag
stays false. -/
theorem c7_connect_boolean (o : ConnectOracle) (m : LutronCasetaManager)
    (h : m.connected = false) :
    (∀ b, o.create_tls m.bridge_ip m.key_path m.cert_path m.ca_path = .ok b →
      o.bridge_connect b = .ok () →
      (LutronCasetaManager.connect o m).1.connected = true ∧
      (LutronCasetaManager.connect o m).2 = true) ∧
    (∀ e, o.create_tls m.bridge_ip m.key_path m.cert_path m.ca_path = .error e →
      (LutronCasetaManager.connect o m).1.connected = false ∧
      (LutronCasetaManager.connect o m).2 = false) ∧
    (∀ b e, o.create_tls m.bridge_ip m.key_path m.cert_path m.ca_path = .ok b →
      o.bridge_connect b = .error e →
      (LutronCasetaManager.connect o m).1.connected = false ∧
      (LutronCasetaManager.connect o m).2 = false) := by
  refine ⟨?_, ?_, ?_⟩
  · intro b h1 h2
    simp [LutronCasetaManager.connect, h1, h2]
  · intro e h1
    simp [LutronCasetaManager.connect, h1, h]
  · intro b e h1 h2
    simp [LutronCasetaManager.connect, h1, h2, h]

/-- Witness for C7: concrete raising TLS constructor on a disconnected
manager. -/
theorem c7_connect_boolean_witness :
    (LutronCasetaManager.connect
        ⟨fun _ _ _ _ => .error "TLS handshake failed", fun _ => .ok ()⟩
        sampleManager).1.connected = false ∧
    (LutronCasetaManager.connect
        ⟨fun _ _ _ _ => .error "TLS handshake failed", fun _ => .ok ()⟩
        sampleManager).2 = false :=
  (c7_connect_boolean
      ⟨fun _ _ _ _ => .error "TLS handshake failed", fun _ => .ok ()⟩
      sampleManager rfl).2.1 "TLS handshake failed" rfl

/-- Claim C8: disconnect is idempotent: under the manager invariant that a
set connected flag implies a live bridge handle (true of every state the
program constructs), a second disconnect yields the same end state as the
first (which is Disconnected), performs no close operation, and hence
raises nothing. -/
theorem c8_disconnect_idempotent (m : LutronCasetaManager)
    (hinv : m.connected = true → m.bridge ≠ none) :
    (LutronCasetaManager.disconnect (LutronCasetaManager.disconnect m).1).1 =
      (LutronCasetaManager.disconnect m).1 ∧
    (LutronCasetaManager.disconnect m).1.connected = false ∧
    (LutronCasetaManager.disconnect (LutronCasetaManager.disconnect m).1).2 =
      false := by
  by_cases hc : m.connected = true
  · have hb := hinv hc
    simp [LutronCasetaManager.disconnect, hb, hc]
  · have hc' : m.connected = false := by
      cases hcc : m.connected
      · rfl
      · exact absurd hcc hc
    simp [LutronCasetaManager.disconnect, hc']

/-- Witness for C8 at a concrete connected manager with a live bridge. -/
theorem c8_disconnect_idempotent_witness :
    (LutronCasetaManager.disconnect
        (LutronCasetaManager.disconnect
          { sampleManager with bridge := some {}, connected := true }).1).1 =
      (LutronCasetaManager.disconnect
        { sampleManager with bridge := some {}, connected := true }).1 ∧
    (LutronCasetaManager.disconnect
        { sampleManager with bridge := some {}, connected := true }).1.connected =
      false ∧
    (LutronCasetaManager.disconnect
        (LutronCasetaManager.disconnect
          { sampleManager with bridge := some {}, connected := true }).1).2 =
      false :=
  c8_disconnect_idempotent
    { sampleManager with bridge := some {}, connected := true }
    (fun _ => by simp)

/-- Claim C4: level validation accepts exactly the integers in [0, 100],
returning the value unchanged; every integer outside the range is rejected
with the offending value in the message; every value of non-integer type
(string, float, null, sequence) is rejected with a type error naming the
type, not coerced. -/
theorem c4_level_validation (n : Int) (s : String) :
    (0 ≤ n ∧ n ≤ 100 → validate_device_level (.intv n) = .ok (.intv n)) ∧
    (n < 0 ∨ 100 < n → validate_device_level (.intv n) =
      .error ("Device level must be between 0 and 100, got " ++ toString n)) ∧
    validate_device_level (.strv s) =
      .error "Device level must be an integer, got str" ∧
    validate_device_level .floatv =
      .error "Device level must be an integer, got float" ∧
    validate_device_level .nonev =
      .error "Device level must be an integer, got NoneType" ∧
    validate_device_level .listv =
      .error "Device level must be an integer, got list" := by
  refine ⟨?_, ?_, rfl, rfl, rfl, rfl⟩
  · rintro ⟨h1, h2⟩
    simp [validate_device_level, isinstance_int, pyIntVal, h1, h2]
  · intro h
    have hb : (decide (0 ≤ n) && decide (n ≤ 100)) = false := by
      simp only [Bool.and_eq_false_iff, decide_eq_false_iff_not]
      omega
    simp [validate_device_level, isinstance_int, pyIntVal, pyStr, hb]

/-- Witness for C4: a level inside the range, one outside, and a string. -/
theorem c4_level_validation_witness :
    validate_device_level (.intv 50) = .ok (.intv 50) ∧
    validate_device_level (.intv 150) =
      .error ("Device level must be between 0 and 100, got " ++
        toString (150 : Int)) ∧
    validate_device_level (.strv "50") =
      .error "Device level must be an integer, got str" :=
  ⟨(c4_level_validation 50 "50").1 ⟨by decide, by decide⟩,
   (c4_level_validation 150 "50").2.1 (Or.inr (by decide)),
   (c4_level_validation 50 "50").2.2.1⟩

/-- Claim C5: host validation rejects every string whose stripped form is
empty with the "cannot be empty" error; when the stripped form does not
parse as an IPv4/IPv6 literal (the external `ipaddress.ip_address` oracle)
it rejects with a format error echoing the trimmed value; and for every
string whose stripped form parses it accepts and returns the trimmed
literal unchanged. -/
theorem c5_host_validation (ip_address : String → Bool) (host : String) :
    (pyStrip host = "" →
      validate_host_ip ip_address host = .error "Host IP cannot be empty") ∧
    (pyStrip host ≠ "" → ip_address (pyStrip host) = false →
      validate_host_ip ip_address host =
        .error ("Invalid IP address format: " ++ pyStrip host)) ∧
    (pyStrip host ≠ "" → ip_address (pyStrip host) = true →
      validate_host_ip ip_address host = .ok (pyStrip host)) := by
  refine ⟨?_, ?_, ?_⟩
  · intro h
    simp [validate_host_ip, h]
  · intro h hip
    have hh : ¬ host = "" := fun he => h (by rw [he]; rfl)
    simp [validate_host_ip, hh, h, hip]
  · intro h hip
    have hh : ¬ host = "" := fun he => h (by rw [he]; rfl)
    simp [validate_host_ip, hh, h, hip]

/-- Witness for C5: a whitespace-padded valid literal is accepted trimmed,
an invalid string is rejected echoing it, a blank string is rejected as
empty. -/
theorem c5_host_validation_witness :
    pyStrip "  192.168.1.10 " = "192.168.1.10" ∧
    validate_host_ip (fun s => s == "192.168.1.10") "  192.168.1.10 " =
      .ok "192.168.1.10" ∧
    validate_host_ip (fun _ => false) "999.999.1.1" =
      .error ("Invalid IP address format: " ++ pyStrip "999.999.1.1") ∧
    validate_host_ip (fun _ => false) "   " =
      .error "Host IP cannot be empty" := by
  have htrim : pyStrip "  192.168.1.10 " = "192.168.1.10" := by decide
  refine ⟨htrim, ?_, ?_, ?_⟩
  · have h := (c5_host_validation (fun s => s == "192.168.1.10")
      "  192.168.1.10 ").2.2 (by decide) (by decide)
    rw [htrim] at h
    exact h
  · exact (c5_host_validation (fun _ => false) "999.999.1.1").2.1
      (by decide) rfl
  · exact (c5_host_validation (fun _ => false) "   ").1 (by decide)

/-- Shared concrete server state: not connected, manager present. -/
def disconnectedServerState : MCPServerState :=
  { config := none, caseta_manager := some sampleManager, connected := false }

/-- Counterexample to C3 as stated: with the server not connected, the call
list_devices("bogus") — an input that fails domain validation — yields the
"not connected" RuntimeError, not a validation failure: the connectivity
guard runs before input validation, so the validation failure is not
surfaced "regardless of connection state". -/
theorem c3_counterexample_not_connected_masks_validation :
    validate_domain "bogus" =
      .error ("Invalid domain \x27bogus\x27. Valid domains are: " ++
        sorted_domains_str) ∧
    (list_devices idleOracle (some disconnectedServerState) "bogus").1 =
      .error (.runtimeError toolNotConnectedMsg) ∧
    ¬ ∃ msg, (list_devices idleOracle (some disconnectedServerState)
        "bogus").1 = .error (.valueError msg) := by
  refine ⟨by decide, rfl, ?_⟩
  rintro ⟨msg, hmsg⟩
  rw [show (list_devices idleOracle (some disconnectedServerState) "bogus").1 =
        Except.error (PyErr.runtimeError toolNotConnectedMsg) from rfl] at hmsg
  simp at hmsg

/-- Claim C3 (amended): when the connection preconditions hold (server state
present, manager present, connected flag true), a tool call whose input
fails validation yields a ValueError carrying the validation message —
distinguishable by exception class from the RuntimeError used for the "not
connected" precondition failure; when not connected, the "not connected"
error takes precedence because the connectivity guard runs first. -/
theorem c3_validation_distinguishable_when_connected (o : BridgeOracle)
    (s : MCPServerState) (mgr : LutronCasetaManager)
    (domain device_id : String) (lv : PyVal)
    (hm : s.caseta_manager = some mgr) (hc : s.connected = true) :
    (∀ e, validate_domain domain = .error e →
      (list_devices o (some s) domain).1 = .error (.valueError e)) ∧
    (∀ e, validate_device_level lv = .error e →
      (set_device_level o (some s) device_id lv).1 = .error (.valueError e)) ∧
    (∀ a b, PyErr.valueError a ≠ PyErr.runtimeError b) := by
  refine ⟨?_, ?_, ?_⟩
  · intro e he
    simp [list_devices, hm, hc, he]
  · intro e he
    simp [set_device_level, hm, hc, he]
  · intro a b hab
    exact PyErr.noConfusion hab

/-- Concrete connected manager and server state for the C3 witness. -/
def connectedManager : LutronCasetaManager :=
  { sampleManager with bridge := some {}, connected := true }

/-- Concrete connected server state for the C3 witness. -/
def connectedServerState : MCPServerState :=
  { config := none, caseta_manager := some connectedManager, connected := true }

/-- Witness for the amended C3 at a connected state with invalid inputs. -/
theorem c3_validation_distinguishable_when_connected_witness :
    (list_devices idleOracle (some connectedServerState) "bogus").1 =
      .error (.valueError ("Invalid domain \x27bogus\x27. Valid domains are: " ++
        sorted_domains_str)) ∧
    (set_device_level idleOracle (some connectedServerState) "dev1"
        (.intv 150)).1 =
      .error (.valueError ("Device level must be between 0 and 100, got " ++
        toString (150 : Int))) ∧
    PyErr.valueError "a" ≠ PyErr.runtimeError "b" := by
  have h := c3_validation_distinguishable_when_connected idleOracle
    connectedServerState connectedManager "bogus" "dev1" (.intv 150) rfl rfl
  exact ⟨h.1 _ (by decide), h.2.1 _ (by decide), h.2.2 "a" "b"⟩

/-- Claim C10: when the pair tool is invoked with a host that fails IP
validation, it returns a structured failure (success false, connected
false), the server state is returned entirely unchanged, no pairing attempt
is made, and no filesystem operation is performed. -/
theorem c10_pair_tool_invalid_host (env : PairToolEnv) (host : String)
    (st : Option MCPServerState) (e : String)
    (h : validate_host_ip env.ip_address host = .error e) :
    pair_bridge_tool env host st =
      ({ success := false, message := "❌ INVALID INPUT: " ++ e,
         status := "Please provide a valid IP address for your Lutron Caseta bridge.",
         connected := false, certificate_files := none }, st, false, []) := by
  simp [pair_bridge_tool, h]

/-- Concrete environment for the C10 witness. -/
def sampleEnv : PairToolEnv :=
  { ip_address := fun _ => false,
    paths := ⟨id, id⟩,
    async_pair := fun _ => .error "unreached",
    cert_dir := "/home/user/.config/lutron-caseta-mcp",
    env_config :=
      { bridge_ip := "",
        cert_dir := "/home/user/.config/lutron-caseta-mcp",
        key_path := "/home/user/.config/lutron-caseta-mcp/caseta.key",
        cert_path := "/home/user/.config/lutron-caseta-mcp/caseta.crt",
        ca_path := "/home/user/.config/lutron-caseta-mcp/caseta-bridge.crt" },
    connect_oracle :=
      ⟨fun _ _ _ _ => .error "unreached", fun _ => .error "unreached"⟩ }

/-- Witness for C10 at a concrete rejected host. -/
theorem c10_pair_tool_invalid_host_witness :
    pair_bridge_tool sampleEnv "not-an-ip" (some {}) =
      ({ success := false,
         message := "❌ INVALID INPUT: " ++
           ("Invalid IP address format: " ++ pyStrip "not-an-ip"),
         status := "Please provide a valid IP address for your Lutron Caseta bridge.",
         connected := false, certificate_files := none },
       some {}, false, []) :=
  c10_pair_tool_invalid_host sampleEnv "not-an-ip" (some {})
    ("Invalid IP address format: " ++ pyStrip "not-an-ip") rfl

end LutronCasetaMcp
